import Mathlib

/-!
Shallow embedding of `src/generate_playlists.py` (Test repository).

Python strings are modelled as `List Char` (`PyStr`); the JSON scalar values
appearing in channel records are modelled by `PyPrim` (Python `None`, `int`, `str`).
The catalog parsed from the fetched JSON is an association list with distinct
keys, iterated in insertion order, mirroring a Python `dict`.
-/

abbrev PyStr := List Char

namespace PlutoGen

/-- The double-quote character, `\x22`. -/
def dq : Char := Char.ofNat 34

/-- The single-quote character, `\x27`. -/
def sq : Char := Char.ofNat 39

/-- The comma character. -/
def comma : Char := Char.ofNat 44

/-- Python `s.replace(a, b)` for one-character `a`, `b`: map the replacement
over the characters. -/
def pyReplaceChar (s : PyStr) (a b : Char) : PyStr :=
  s.map (fun c => if c = a then b else c)

/-- Python `s.replace(a, '')` for a one-character `a`: drop every occurrence. -/
def pyRemoveChar (s : PyStr) (a : Char) : PyStr :=
  s.filter (fun c => c ≠ a)

/-- ASCII lower-casing of one character (the channel names and region codes the
script manipulates are ASCII; Python `str.lower` agrees there). -/
def pyLowerChar (c : Char) : Char :=
  if c.toNat ≥ 65 ∧ c.toNat ≤ 90 then Char.ofNat (c.toNat + 32) else c

/-- ASCII upper-casing of one character. -/
def pyUpperChar (c : Char) : Char :=
  if c.toNat ≥ 97 ∧ c.toNat ≤ 122 then Char.ofNat (c.toNat - 32) else c

/-- Python `s.lower()`. -/
def pyLower (s : PyStr) : PyStr := s.map pyLowerChar

/-- Python `s.upper()`. -/
def pyUpper (s : PyStr) : PyStr := s.map pyUpperChar

/-- A digit character `0`-`9` (what `str.isdigit` accepts on the ASCII inputs
the script produces). -/
def isDigitChar (c : Char) : Bool := c.toNat ≥ 48 ∧ c.toNat ≤ 57

/-- Python `s.isdigit()`: non-empty and all characters digits. -/
def pyIsDigit (s : PyStr) : Bool := !s.isEmpty && s.all isDigitChar

/-- Python scalar values that can sit in a channel record field:
`None`, an `int`, or a `str`. -/
inductive PyPrim where
  | none : PyPrim
  | int (n : Int) : PyPrim
  | str (s : PyStr) : PyPrim
deriving DecidableEq, Repr

/-- Decimal digits of a natural number, most significant first. -/
def natDigits (n : Nat) : PyStr :=
  (Nat.toDigits 10 n)

/-- Python `str(v)` on a scalar: `str(None) = "None"`, `str(-3) = "-3"`,
`str(s) = s`. -/
def pyStrOf : PyPrim → PyStr
  | .none => "None".data
  | .int n => if n < 0 then [Char.ofNat 45] ++ natDigits n.natAbs else natDigits n.natAbs
  | .str s => s

/-- The exceptions the script's control flow distinguishes. -/
inductive PyErr where
  | nameError (n : String) : PyErr
  | typeError : PyErr
  | valueError : PyErr
  | gzipOther : PyErr
deriving DecidableEq, Repr

/-- Numeric value of a string of digits, most significant first. -/
def digitsVal (s : PyStr) : Nat :=
  s.foldl (fun acc c => acc * 10 + (c.toNat - 48)) 0

/-- Python `int(v)` on a scalar. `int(None)` raises `TypeError`; `int` of a
string accepts an optional sign followed by digits (else `ValueError`);
`int` of an int is the identity. Surrounding whitespace and underscore
grouping are not exercised by this script's data and are not modelled. -/
def pyIntOf : PyPrim → Except PyErr Int
  | .none => .error .typeError
  | .int n => .ok n
  | .str s =>
    match s with
    | c :: rest =>
      if c = Char.ofNat 45 then
        if pyIsDigit rest then .ok (-(digitsVal rest : Int)) else .error .valueError
      else if c = Char.ofNat 43 then
        if pyIsDigit rest then .ok (digitsVal rest : Int) else .error .valueError
      else if pyIsDigit s then .ok (digitsVal s : Int) else .error .valueError
    | [] => .error .valueError

/-!  ### `format_extinf` (lines 77-94 of the source) -/

/-- Line 80: `chno_str = str(tvg_chno) if tvg_chno is not None and
str(tvg_chno).isdigit() else ""`. -/
def chno_str_of (tvg_chno : PyPrim) : PyStr :=
  if tvg_chno ≠ PyPrim.none ∧ pyIsDigit (pyStrOf tvg_chno) = true then pyStrOf tvg_chno else []

/-- `format_extinf` (source lines 77-94): builds the `#EXTINF` metadata line.
Quote characters in `tvg_name` and `group_title` are replaced by a single
quote; commas in `display_name` are removed. -/
def format_extinf (channel_id tvg_id : PyStr) (tvg_chno : PyPrim)
    (tvg_name tvg_logo group_title display_name : PyStr) : PyStr :=
  let chno_str := chno_str_of tvg_chno
  let sanitized_tvg_name := pyReplaceChar tvg_name dq sq
  let sanitized_group_title := pyReplaceChar group_title dq sq
  let sanitized_display_name := pyRemoveChar display_name comma
  "#EXTINF:-1 channel-id=\"".data ++ channel_id ++
  "\" tvg-id=\"".data ++ tvg_id ++
  "\" tvg-chno=\"".data ++ chno_str ++
  "\" tvg-name=\"".data ++ sanitized_tvg_name ++
  "\" tvg-logo=\"".data ++ tvg_logo ++
  "\" group-title=\"".data ++ sanitized_group_title ++
  "\",".data ++ sanitized_display_name ++ "\n".data

/-!  ### The PlutoTV catalog data model and `generate_lgchannels_m3u` -/

/-- One channel record of the fetched catalog. `Option.none` in a field means
the key is absent from the record's dict; `chno` may also be present and hold
a JSON `null` (`some PyPrim.none`), an int, or a string. The `name`, `logo`
and `group` fields, when present, hold strings in the feed. -/
structure ChannelInfo where
  chno : Option PyPrim
  name : Option PyStr
  logo : Option PyStr
  group : Option PyStr
deriving DecidableEq, Repr

/-- A region of the catalog: its channel dict, in insertion order. -/
structure RegionData where
  channels : List (PyStr × ChannelInfo)
deriving DecidableEq, Repr

/-- The parsed value of `data['regions']`: region code to region data, in
insertion order. -/
structure Catalog where
  regions : List (PyStr × RegionData)
deriving DecidableEq, Repr

/-- Python `dict` insertion into an association list: an existing key is
updated in place (its position is kept), a new key is appended. -/
def dictInsert (m : List (PyStr × α)) (k : PyStr) (v : α) : List (PyStr × α) :=
  if m.any (fun p => p.1 = k) then
    m.map (fun p => if p.1 = k then (k, v) else p)
  else m ++ [(k, v)]

/-- Association-list lookup (Python `dict.get`). -/
def dictGet (m : List (PyStr × α)) (k : PyStr) : Option α :=
  (m.find? (fun p => p.1 = k)).map (fun p => p.2)

/-- A value of `channels_to_process`: the channel record merged with the
region bookkeeping fields added on lines 130-135 / 142-146. The constructor
on line 130 always sets `group_title_override`; line 142 never does.
`original_id` is set by both constructors, so the `.get` fallback on
line 165 is never taken. -/
structure ProcEntry where
  info : ChannelInfo
  region_code : PyStr
  group_title_override : Option PyStr
  original_id : PyStr
deriving DecidableEq, Repr

/-- `region_name_map` (source lines 109-115). -/
def region_name_map : List (PyStr × PyStr) :=
  [("ar".data, "Argentina".data), ("br".data, "Brazil".data), ("ca".data, "Canada".data),
   ("cl".data, "Chile".data), ("co".data, "Colombia".data), ("cr".data, "Costa Rica".data),
   ("de".data, "Germany".data), ("dk".data, "Denmark".data), ("do".data, "Dominican Republic".data),
   ("ec".data, "Ecuador".data), ("es".data, "Spain".data), ("fr".data, "France".data),
   ("gb".data, "United Kingdom".data), ("gt".data, "Guatemala".data), ("it".data, "Italy".data),
   ("mx".data, "Mexico".data), ("no".data, "Norway".data), ("pe".data, "Peru".data),
   ("se".data, "Sweden".data), ("us".data, "United States".data),
   ("latam".data, "Latin America".data)]

/-- Line 126: `region_name_map.get(region_key, region_key.upper())`. -/
def regionFullName (region_key : PyStr) : PyStr :=
  (dictGet region_name_map region_key).getD (pyUpper region_key)

/-- Lines 124-135: merged-mode construction of `channels_to_process`
over every region of the catalog. -/
def buildAll (cat : Catalog) : List (PyStr × ProcEntry) :=
  cat.regions.foldl
    (fun acc rp =>
      let region_key := rp.1
      let region_full_name := regionFullName region_key
      rp.2.channels.foldl
        (fun acc2 cp =>
          dictInsert acc2 (cp.1 ++ "-".data ++ region_key)
            { info := cp.2, region_code := region_key,
              group_title_override := some region_full_name, original_id := cp.1 })
        acc)
    []

/-- Lines 141-146: single-region construction of `channels_to_process`. -/
def buildOne (region : PyStr) (rd : RegionData) : List (PyStr × ProcEntry) :=
  rd.channels.foldl
    (fun acc cp =>
      dictInsert acc cp.1
        { info := cp.2, region_code := region,
          group_title_override := Option.none, original_id := cp.1 })
    []

/-- The sort key of line 151: `int(channels_to_process[k].get('chno', 99999))`,
which may raise. -/
def chnoKey (e : ProcEntry) : Except PyErr Int :=
  pyIntOf (e.info.chno.getD (.int 99999))

/-- The sort key of line 153: `channels_to_process[k].get('name', '').lower()`. -/
def nameKey (e : ProcEntry) : PyStr :=
  pyLower (e.info.name.getD [])

/-- Python `≤` on strings: lexicographic by code point. -/
def pyStrLe : PyStr → PyStr → Bool
  | [], _ => true
  | _ :: _, [] => false
  | a :: as_, b :: bs => if a.toNat < b.toNat then true
      else if a.toNat = b.toNat then pyStrLe as_ bs else false

/-- Lines 148-156: sort `channels_to_process` and return the key order.
Python's `sorted` is a stable sort on the computed keys; a stable sort's
output is determined by the comparator, so it is modelled by the (stable)
`List.insertionSort` on key-decorated entries. If computing any key raises
(e.g. `int(None)`), the `except` branch of line 154 falls back to the
dict's own order. Sorting by name cannot raise on the string/absent names
this model admits. -/
def sortChannelIds (sort : PyStr) (m : List (PyStr × ProcEntry)) : List PyStr :=
  if sort = "chno".data then
    match m.mapM (fun p => (chnoKey p.2).map (fun n => (p.1, n))) with
    | .ok keyed => (keyed.insertionSort (fun a b => a.2 ≤ b.2)).map (fun p => p.1)
    | .error _ => m.map (fun p => p.1)
  else
    (m.insertionSort (fun a b => pyStrLe (nameKey a.2) (nameKey b.2) = true)).map
      (fun p => p.1)

/-- Line 169: `STREAM_URL_TEMPLATE.replace('{id}', original_id)`. -/
def streamUrl (original_id : PyStr) : PyStr :=
  "https://jmp2.uk/plu-".data ++ original_id ++ ".m3u8".data

/-- Line 119: `EPG_URL_TEMPLATE.replace('{region}', region)`. -/
def epgUrl (region : PyStr) : PyStr :=
  "https://github.com/matthuisman/i.mjh.nz/raw/master/PlutoTV/".data ++ region ++ ".xml.gz".data

/-- Line 120: the `#EXTM3U` header line. -/
def m3uHeader (region : PyStr) : PyStr :=
  "#EXTM3U url-tvg=\"".data ++ epgUrl region ++ "\"\n".data

/-- Lines 159-171: the two output lines of one channel. `group_title_override`
is always set when `is_all_region` (line 130), so the `getD []` default is
never taken on states the code constructs. -/
def entryLines (is_all_region : Bool) (channel_id : PyStr) (e : ProcEntry) : PyStr :=
  let chno := e.info.chno.getD PyPrim.none
  let name := e.info.name.getD "Unknown Channel".data
  let logo := e.info.logo.getD []
  let group := if is_all_region then e.group_title_override.getD []
               else e.info.group.getD "Uncategorized".data
  let original_id := e.original_id
  let tvg_id := original_id
  format_extinf channel_id tvg_id chno name logo group name ++
    streamUrl original_id ++ "\n".data

/-- Lines 117-173, one iteration of the region loop: the content of the file
written for `region`, or `Option.none` when the region is skipped
(line 140). -/
def regionOutput (cat : Catalog) (sort : PyStr) (region : PyStr) : Option PyStr :=
  let is_all_region := pyLower region = "all".data
  let build : Option (List (PyStr × ProcEntry)) :=
    if is_all_region then some (buildAll cat)
    else (dictGet cat.regions region).map (buildOne region)
  build.map (fun m =>
    let sorted_channel_ids := sortChannelIds sort m
    m3uHeader region ++
      (sorted_channel_ids.map (fun k =>
        match dictGet m k with
        | some e => entryLines is_all_region k e
        | none => [])).flatten)

/-- The file name of line 173. -/
def outputFileName (region : PyStr) : PyStr :=
  "lgchannels_".data ++ region ++ ".m3u".data

/-- Lines 105-173 given the fetched catalog: the `(file name, content)` pairs
passed to `write_m3u_file`, in region order; skipped regions produce no
pair. -/
def generate_from_data (cat : Catalog) (regions : List PyStr) (sort : PyStr) :
    List (PyStr × PyStr) :=
  regions.filterMap (fun r => (regionOutput cat sort r).map (fun c => (outputFileName r, c)))

/-!  ### `fetch_url` (lines 17-61) -/

/-- Outcome of `requests.get` plus `raise_for_status` (lines 21-22):
either a body, or a `RequestException` (connection failure, timeout,
4xx/5xx status). -/
inductive ReqOutcome where
  | ok (content : PyStr) : ReqOutcome
  | requestError : ReqOutcome
deriving DecidableEq, Repr

/-- Outcome of `gzip.GzipFile(...).read()` on a body (lines 33-34):
the decompressed text, `BadGzipFile` (the body does not start with the gzip
magic, i.e. mislabeled plain content), or any other failure (e.g. `EOFError`
on a truncated gzip stream). -/
inductive GzipOutcome where
  | ok (text : PyStr) : GzipOutcome
  | badGzip : GzipOutcome
  | otherError : GzipOutcome
deriving DecidableEq, Repr

/-- What `fetch_url` returns to its caller (the `stream=True` branch is not
exercised by this script): the `None` sentinel, a parsed JSON value, or raw
text. -/
inductive FetchRet (α : Type) where
  | noneV : FetchRet α
  | jsonV (j : α) : FetchRet α
  | textV (s : PyStr) : FetchRet α
deriving DecidableEq, Repr

/-- `fetch_url` (lines 17-61) with `stream=False`, parameterised by the
outcomes of the two library calls: `gz body` is what the gzip read does on
`body`, and `jparse` models `json.loads` (`Option.none` = `JSONDecodeError`).
`BadGzipFile` is caught on line 36 and the body is kept as plain text;
any other decompression failure is re-raised on line 41 and lands in the
outer `except Exception` (line 59), which returns `None`; so do request
errors (line 53) and JSON errors (line 56). -/
def fetch_url (req : ReqOutcome) (gz : PyStr → GzipOutcome)
    (jparse : PyStr → Option α) (is_json is_gzipped : Bool) : FetchRet α :=
  match req with
  | .requestError => .noneV
  | .ok body =>
    let contentAfterGzip : Except PyErr PyStr :=
      if is_gzipped then
        match gz body with
        | .ok text => .ok text
        | .badGzip => .ok body          -- line 36-38: fall back to plain text
        | .otherError => .error .gzipOther  -- line 39-41: re-raise
      else .ok body
    match contentAfterGzip with
    | .error _ => .noneV                -- caught by the outer handler, line 59-61
    | .ok content =>
      if is_json then
        match jparse content with
        | some j => .jsonV j
        | Option.none => .noneV         -- line 56-58: JSONDecodeError
      else .textV content

/-- The names bound at module level in `generate_playlists.py` (imports,
configuration constants and the four functions). -/
def module_globals : List String :=
  ["requests", "gzip", "json", "os", "logging", "BytesIO",
   "OUTPUT_DIR", "USER_AGENT", "REQUEST_TIMEOUT",
   "fetch_url", "write_m3u_file", "format_extinf", "generate_lgchannels_m3u"]

/-- Whole-function model of `generate_lgchannels_m3u` (lines 98-173).
Line 104 reads the identifier `lgchannels_URL`; the local variable assigned
on line 100 is `LGCHANNELS_URL` (Python identifiers are case-sensitive), so
the name is resolved against the module globals and, being unbound, raises
`NameError` before `fetch_url` is ever called. `fetched` is the value
`fetch_url` would return (`Option.none` models the `None` failure sentinel);
the result lists the files written, or the exception that escapes. -/
def generate_lgchannels_m3u (fetched : Option Catalog) (regions : List PyStr)
    (sort : PyStr) : Except PyErr (List (PyStr × PyStr)) :=
  if module_globals.contains "lgchannels_URL" then
    match fetched with
    | Option.none => .ok []        -- line 105-107: falsy data, log and return
    | some cat => .ok (generate_from_data cat regions sort)
  else
    .error (.nameError "lgchannels_URL")

/-!  ## Helper lemmas -/

/-- Replacing every `dq` by `sq` leaves no `dq` in the string. -/
theorem dq_not_mem_pyReplaceChar (s : PyStr) : dq ∉ pyReplaceChar s dq sq := by
  simp only [pyReplaceChar, List.mem_map, not_exists, not_and]
  intro c _
  by_cases hc : c = dq
  · simp [hc]
    decide
  · simp [hc]

/-- `pyStrLe` is total. -/
theorem pyStrLe_total : ∀ (a b : PyStr), pyStrLe a b || pyStrLe b a
  | [], _ => by simp [pyStrLe]
  | _ :: _, [] => by simp [pyStrLe]
  | a :: as_, b :: bs => by
    simp only [pyStrLe]
    rcases Nat.lt_trichotomy a.toNat b.toNat with h | h | h
    · simp [h]
    · simp only [h, Nat.lt_irrefl, if_neg, if_pos, ite_true, ite_false, if_true, if_false]
      simpa using pyStrLe_total as_ bs
    · have h1 : ¬ a.toNat < b.toNat := Nat.lt_asymm h
      have h2 : ¬ a.toNat = b.toNat := Nat.ne_of_gt h
      simp [h, h1, h2]

/-- `pyStrLe` is transitive. -/
theorem pyStrLe_trans : ∀ (a b c : PyStr),
    pyStrLe a b = true → pyStrLe b c = true → pyStrLe a c = true
  | [], _, _, _, _ => by simp [pyStrLe]
  | a :: as_, [], _, hab, _ => by simp [pyStrLe] at hab
  | _ :: _, _ :: _, [], _, hbc => by simp [pyStrLe] at hbc
  | a :: as_, b :: bs, c :: cs, hab, hbc => by
    simp only [pyStrLe] at hab hbc ⊢
    by_cases h1 : a.toNat < b.toNat
    · by_cases h2 : b.toNat < c.toNat
      · simp [Nat.lt_trans h1 h2]
      · by_cases h3 : b.toNat = c.toNat
        · simp [h3 ▸ h1]
        · simp [h2, h3] at hbc
    · by_cases h3 : a.toNat = b.toNat
      · by_cases h2 : b.toNat < c.toNat
        · simp [h3 ▸ h2]
        · by_cases h4 : b.toNat = c.toNat
          · have hac : a.toNat = c.toNat := h3.trans h4
            have hlt : ¬ a.toNat < c.toNat := by omega
            simp only [if_neg hlt, if_pos hac]
            simp only [if_neg h1, if_pos h3] at hab
            simp only [if_neg h2, if_pos h4] at hbc
            exact pyStrLe_trans as_ bs cs hab hbc
          · simp [h2, h4] at hbc
      · simp [h1, h3] at hab

/-!  ## Claim theorems -/

/-- C1: the claim that no exception ever propagates out of
`generate_lgchannels_m3u` fails on the code: line 104 reads the unbound
identifier `lgchannels_URL` (the constant is `LGCHANNELS_URL`), so every run,
whatever the regions list, sort mode, or fetch outcome, raises `NameError`
before any file is written. -/
theorem C1_generate_always_raises_NameError :
    ∀ (fetched : Option Catalog) (regions : List PyStr) (sort : PyStr),
      generate_lgchannels_m3u fetched regions sort =
        .error (.nameError "lgchannels_URL") := by
  intro fetched regions sort
  rfl

/-- C3: `format_extinf` replaces every double quote in the name and in the
group title by a single quote (position by position, so no double quote
remains in those attributes), removes every comma from the trailing display
name (keeping exactly the non-comma characters), and splices exactly these
sanitized values into the metadata line. -/
theorem C3_format_extinf_sanitizes
    (channel_id tvg_id : PyStr) (tvg_chno : PyPrim)
    (tvg_name tvg_logo group_title display_name : PyStr) :
    format_extinf channel_id tvg_id tvg_chno tvg_name tvg_logo group_title display_name =
      "#EXTINF:-1 channel-id=\"".data ++ channel_id ++
      "\" tvg-id=\"".data ++ tvg_id ++
      "\" tvg-chno=\"".data ++ chno_str_of tvg_chno ++
      "\" tvg-name=\"".data ++ pyReplaceChar tvg_name dq sq ++
      "\" tvg-logo=\"".data ++ tvg_logo ++
      "\" group-title=\"".data ++ pyReplaceChar group_title dq sq ++
      "\",".data ++ pyRemoveChar display_name comma ++ "\n".data
    ∧ dq ∉ pyReplaceChar tvg_name dq sq
    ∧ dq ∉ pyReplaceChar group_title dq sq
    ∧ (∀ i : Nat, (pyReplaceChar tvg_name dq sq)[i]? =
        (tvg_name[i]?).map (fun c => if c = dq then sq else c))
    ∧ (∀ c, c ∈ pyRemoveChar display_name comma ↔ c ∈ display_name ∧ c ≠ comma) := by
  refine ⟨rfl, dq_not_mem_pyReplaceChar _, dq_not_mem_pyReplaceChar _, ?_, ?_⟩
  · intro i
    simp [pyReplaceChar]
  · intro c
    simp [pyRemoveChar]

/-- C4: the `tvg-chno` field of `format_extinf` carries the channel number
verbatim exactly when the value is non-null and its string form is all
digits; otherwise it is empty. In particular `"7"` and `7` survive, while
`None`, `"7.5"` and `"-3"` give an empty field. -/
theorem C4_chno_round_trip (v : PyPrim) :
    (chno_str_of v = pyStrOf v ∨ chno_str_of v = [])
    ∧ ((v ≠ PyPrim.none ∧ pyIsDigit (pyStrOf v) = true) → chno_str_of v = pyStrOf v)
    ∧ (chno_str_of v ≠ [] →
        v ≠ PyPrim.none ∧ pyIsDigit (pyStrOf v) = true ∧ chno_str_of v = pyStrOf v)
    ∧ chno_str_of (PyPrim.str "7".data) = "7".data
    ∧ chno_str_of (PyPrim.int 7) = "7".data
    ∧ chno_str_of PyPrim.none = []
    ∧ chno_str_of (PyPrim.str "7.5".data) = []
    ∧ chno_str_of (PyPrim.str "-3".data) = []
    ∧ chno_str_of (PyPrim.int (-3)) = [] := by
  unfold chno_str_of
  by_cases h : v ≠ PyPrim.none ∧ pyIsDigit (pyStrOf v) = true
  · rw [if_pos h]
    exact ⟨Or.inl rfl, fun _ => rfl, fun _ => ⟨h.1, h.2, rfl⟩,
      by decide, by decide, by decide, by decide, by decide, by decide⟩
  · rw [if_neg h]
    exact ⟨Or.inr rfl, fun hc => absurd hc h, fun hne => absurd rfl hne,
      by decide, by decide, by decide, by decide, by decide, by decide⟩

/-- Closed instance of `C4_chno_round_trip` at the channel number `"7"`,
discharging the digit-validity hypothesis there. -/
theorem C4_chno_round_trip_witness :
    ((PyPrim.str "7".data ≠ PyPrim.none ∧ pyIsDigit (pyStrOf (PyPrim.str "7".data)) = true)
      ∧ chno_str_of (PyPrim.str "7".data) = pyStrOf (PyPrim.str "7".data)) :=
  ⟨by decide, (C4_chno_round_trip (PyPrim.str "7".data)).2.1 (by decide)⟩

/-- Decidable equality on `Except`, for evaluating key computations. -/
instance {ε α : Type} [DecidableEq ε] [DecidableEq α] : DecidableEq (Except ε α)
  | .ok a, .ok b =>
    if h : a = b then .isTrue (by rw [h]) else .isFalse (by intro hc; injection hc; contradiction)
  | .error a, .error b =>
    if h : a = b then .isTrue (by rw [h]) else .isFalse (by intro hc; injection hc; contradiction)
  | .ok _, .error _ => .isFalse (by intro hc; injection hc)
  | .error _, .ok _ => .isFalse (by intro hc; injection hc)

/-- A region whose three channels carry channel numbers `5`, `None`
(a present JSON null) and `1`, in that catalog order. -/
def chnoNullChannels : RegionData :=
  ⟨[("a".data, ⟨some (.int 5), Option.none, Option.none, Option.none⟩),
    ("b".data, ⟨some PyPrim.none, Option.none, Option.none, Option.none⟩),
    ("c".data, ⟨Option.some (.int 1), Option.none, Option.none, Option.none⟩)]⟩

/-- Like `chnoNullChannels`, but the middle channel's `chno` key is absent
from its record instead of holding a null. -/
def chnoAbsentChannels : RegionData :=
  ⟨[("a".data, ⟨some (.int 5), Option.none, Option.none, Option.none⟩),
    ("b".data, ⟨Option.none, Option.none, Option.none, Option.none⟩),
    ("c".data, ⟨Option.some (.int 1), Option.none, Option.none, Option.none⟩)]⟩

/-- C2, counterexample: sorting channel numbers `5`, `None`, `1` under
`sort == "chno"` does not yield `1, 5, None`: `int(None)` raises `TypeError`,
the `except` of line 154 fires, and the catalog order `5, None, 1` is kept. -/
theorem C2_chno_null_keeps_catalog_order :
    sortChannelIds "chno".data (buildOne "us".data chnoNullChannels) =
      ["a".data, "b".data, "c".data]
    ∧ sortChannelIds "chno".data (buildOne "us".data chnoNullChannels) ≠
      ["c".data, "a".data, "b".data] := by
  constructor
  · rfl
  · decide

/-- C2, amended: when every per-channel key computation succeeds (so in
particular no `chno` is null or non-numeric), `sort == "chno"` orders the
ids by ascending numeric key, a channel whose `chno` key is absent getting
the sentinel `99999`; channel numbers `5`, absent, `1` come out as
`1, 5, absent`, while a present null aborts the sort and keeps catalog
order. -/
theorem C2_chno_sort_amended (m : List (PyStr × ProcEntry))
    (keyed : List (PyStr × Int))
    (h : m.mapM (fun p => (chnoKey p.2).map (fun n => (p.1, n))) = .ok keyed) :
    sortChannelIds "chno".data m =
      (keyed.insertionSort (fun a b => a.2 ≤ b.2)).map (fun p => p.1)
    ∧ (keyed.insertionSort (fun a b => a.2 ≤ b.2)).Pairwise (fun a b => a.2 ≤ b.2)
    ∧ List.Perm (keyed.insertionSort (fun a b => a.2 ≤ b.2)) keyed
    ∧ (∀ p : PyStr × ProcEntry, p.2.info.chno = Option.none → chnoKey p.2 = .ok 99999)
    ∧ sortChannelIds "chno".data (buildOne "us".data chnoAbsentChannels) =
        ["c".data, "a".data, "b".data]
    ∧ sortChannelIds "chno".data (buildOne "us".data chnoNullChannels) =
        ["a".data, "b".data, "c".data] := by
  refine ⟨?_, ?_, ?_, ?_, by decide, rfl⟩
  · unfold sortChannelIds
    rw [if_pos (rfl : "chno".data = "chno".data), h]
  · letI : IsTotal (PyStr × Int) (fun a b => a.2 ≤ b.2) :=
      ⟨fun a b => Int.le_total a.2 b.2⟩
    letI : IsTrans (PyStr × Int) (fun a b => a.2 ≤ b.2) :=
      ⟨fun _ _ _ hab hbc => le_trans hab hbc⟩
    exact List.sorted_insertionSort _ keyed
  · exact List.perm_insertionSort _ keyed
  · intro p hp
    simp [chnoKey, hp, pyIntOf]

/-- Closed instance of `C2_chno_sort_amended` on the `5`, absent, `1`
region, discharging the keys-compute hypothesis there. -/
theorem C2_chno_sort_amended_witness :
    ((buildOne "us".data chnoAbsentChannels).mapM
        (fun p => (chnoKey p.2).map (fun n => (p.1, n))) =
      .ok [("a".data, 5), ("b".data, 99999), ("c".data, 1)])
    ∧ sortChannelIds "chno".data (buildOne "us".data chnoAbsentChannels) =
        ["c".data, "a".data, "b".data] :=
  ⟨by decide,
   (C2_chno_sort_amended (buildOne "us".data chnoAbsentChannels)
      [("a".data, 5), ("b".data, 99999), ("c".data, 1)] (by decide)).2.2.2.2.1⟩

/-- A region with channels named `Zebra` then `apple`, in that catalog
order. -/
def nameExampleChannels : RegionData :=
  ⟨[("z".data, ⟨Option.none, some "Zebra".data, Option.none, Option.none⟩),
    ("ap".data, ⟨Option.none, some "apple".data, Option.none, Option.none⟩)]⟩

/-- C7: any sort mode other than `"chno"` orders the ids by the
case-insensitive display name, ascending (lexicographically by lowered code
points); the result is a permutation of the dict, a record with no name
field gets the empty string as key and the empty string precedes every key,
ties keep the catalog iteration order (the sort is stable), and names
`Zebra`, `apple` come out as `apple`, `Zebra`. -/
theorem C7_name_sort_stable_ci (m : List (PyStr × ProcEntry)) (sort : PyStr)
    (hs : sort ≠ "chno".data) :
    sortChannelIds sort m =
      (m.insertionSort (fun a b => pyStrLe (nameKey a.2) (nameKey b.2) = true)).map
        (fun p => p.1)
    ∧ (m.insertionSort (fun a b => pyStrLe (nameKey a.2) (nameKey b.2) = true)).Pairwise
        (fun a b => pyStrLe (nameKey a.2) (nameKey b.2) = true)
    ∧ List.Perm
        (m.insertionSort (fun a b => pyStrLe (nameKey a.2) (nameKey b.2) = true)) m
    ∧ (∀ p : PyStr × ProcEntry, p.2.info.name = Option.none → nameKey p.2 = [])
    ∧ (∀ q : PyStr × ProcEntry, pyStrLe [] (nameKey q.2) = true)
    ∧ (∀ a b : PyStr × ProcEntry, pyStrLe (nameKey a.2) (nameKey b.2) = true →
        [a, b].Sublist m →
        [a, b].Sublist
          (m.insertionSort (fun a b => pyStrLe (nameKey a.2) (nameKey b.2) = true)))
    ∧ sortChannelIds "name".data (buildOne "us".data nameExampleChannels) =
        ["ap".data, "z".data] := by
  refine ⟨?_, ?_, List.perm_insertionSort _ m, ?_, ?_, ?_, by decide⟩
  · unfold sortChannelIds
    rw [if_neg hs]
  · letI : IsTotal (PyStr × ProcEntry)
        (fun a b => pyStrLe (nameKey a.2) (nameKey b.2) = true) :=
      ⟨fun a b => by
        have := pyStrLe_total (nameKey a.2) (nameKey b.2)
        rcases Bool.or_eq_true_iff.mp this with h | h
        · exact Or.inl h
        · exact Or.inr h⟩
    letI : IsTrans (PyStr × ProcEntry)
        (fun a b => pyStrLe (nameKey a.2) (nameKey b.2) = true) :=
      ⟨fun a b c hab hbc => pyStrLe_trans _ _ _ hab hbc⟩
    exact List.sorted_insertionSort _ m
  · intro p hp
    simp [nameKey, hp, pyLower]
  · intro q
    simp [pyStrLe]
  · intro a b hab hsub
    exact List.pair_sublist_insertionSort hab hsub

/-- Closed instance of `C7_name_sort_stable_ci` for `sort = "name"`,
discharging the not-`"chno"` hypothesis there on the `Zebra`/`apple`
region. -/
theorem C7_name_sort_stable_ci_witness :
    ("name".data ≠ "chno".data)
    ∧ sortChannelIds "name".data (buildOne "us".data nameExampleChannels) =
        ["ap".data, "z".data] :=
  ⟨by decide,
   (C7_name_sort_stable_ci (buildOne "us".data nameExampleChannels) "name".data
      (by decide)).2.2.2.2.2.2⟩

/-- The output file names are distinct for distinct regions. -/
theorem outputFileName_inj {r r' : PyStr} (h : outputFileName r = outputFileName r') :
    r = r' := by
  unfold outputFileName at h
  exact List.append_cancel_left (List.append_cancel_right h)

/-- A one-region demo catalog holding only `us`. -/
def usOnlyCatalog : Catalog := ⟨[("us".data, nameExampleChannels)]⟩

/-- C6: a requested region other than `all` that is absent from the catalog
is skipped: its loop iteration produces no content, no file of its name
appears among the written files, and every requested region that is present
(or is `all`) still gets its file. -/
theorem C6_missing_region_skipped (cat : Catalog) (sort : PyStr)
    (regions : List PyStr) (r : PyStr)
    (hall : pyLower r ≠ "all".data)
    (hmiss : dictGet cat.regions r = Option.none) :
    regionOutput cat sort r = Option.none
    ∧ (∀ p ∈ generate_from_data cat regions sort, p.1 ≠ outputFileName r)
    ∧ (∀ r' ∈ regions, (pyLower r' = "all".data ∨ (dictGet cat.regions r').isSome) →
        ∃ c, (outputFileName r', c) ∈ generate_from_data cat regions sort) := by
  have hout : regionOutput cat sort r = Option.none := by
    unfold regionOutput
    simp [hall, hmiss]
  refine ⟨hout, ?_, ?_⟩
  · intro p hp hname
    obtain ⟨r', _, hf⟩ := List.mem_filterMap.mp hp
    obtain ⟨c, hc, hpc⟩ := Option.map_eq_some'.mp hf
    have : r' = r := outputFileName_inj (by rw [← hpc] at hname; exact hname)
    rw [this, hout] at hc
    exact Option.noConfusion hc
  · intro r' hr' hcase
    have hsome : ∃ c, regionOutput cat sort r' = some c := by
      unfold regionOutput
      rcases hcase with h | h
      · simp [h]
      · obtain ⟨rd, hrd⟩ := Option.isSome_iff_exists.mp h
        by_cases hall' : pyLower r' = "all".data
        · simp [hall']
        · simp [hall', hrd]
    obtain ⟨c, hc⟩ := hsome
    exact ⟨c, List.mem_filterMap.mpr ⟨r', hr', by rw [hc]; rfl⟩⟩

/-- Closed instance of `C6_missing_region_skipped`: requesting `us` and the
absent `zz` against a `us`-only catalog, `zz` is skipped while `us` is
processed. -/
theorem C6_missing_region_skipped_witness :
    (pyLower "zz".data ≠ "all".data)
    ∧ (dictGet usOnlyCatalog.regions "zz".data = Option.none)
    ∧ regionOutput usOnlyCatalog "name".data "zz".data = Option.none :=
  ⟨by decide, by decide,
   (C6_missing_region_skipped usOnlyCatalog "name".data ["us".data, "zz".data]
      "zz".data (by decide) (by decide)).1⟩

/-- The merged-mode entries, one per `(region, channel)` pair of the catalog,
in iteration order, before `dict` collision handling. -/
def allEntriesFlat (cat : Catalog) : List (PyStr × ProcEntry) :=
  cat.regions.flatMap (fun rp =>
    rp.2.channels.map (fun cp =>
      (cp.1 ++ "-".data ++ rp.1,
       { info := cp.2, region_code := rp.1,
         group_title_override := some (regionFullName rp.1), original_id := cp.1 })))

/-- `buildAll` is folding `dict` insertion over the flattened entry list. -/
theorem buildAll_eq_foldl (cat : Catalog) :
    buildAll cat = (allEntriesFlat cat).foldl (fun a p => dictInsert a p.1 p.2) [] := by
  unfold buildAll allEntriesFlat
  rw [List.flatMap, List.foldl_flatten, List.foldl_map]
  congr 1
  funext acc rp
  rw [List.foldl_map]

/-- Folding `dict` insertion of entries whose keys are fresh and pairwise
distinct just appends them. -/
theorem foldl_dictInsert_of_nodup {α : Type} :
    ∀ (l acc : List (PyStr × α)), ((acc ++ l).map Prod.fst).Nodup →
      l.foldl (fun a p => dictInsert a p.1 p.2) acc = acc ++ l
  | [], acc => by simp
  | p :: t, acc => by
    intro h
    have h' : (((acc ++ [p]) ++ t).map Prod.fst).Nodup := by
      rw [← List.append_cons] at *
      exact h
    have hfresh : ¬ (acc.any (fun q => q.1 = p.1) = true) := by
      rw [List.map_append] at h
      obtain ⟨-, -, hdisj⟩ := List.nodup_append.mp h
      intro hc
      obtain ⟨q, hq, hq1⟩ := List.any_eq_true.mp hc
      have hq1' : q.1 = p.1 := of_decide_eq_true hq1
      have hmem : p.1 ∈ acc.map Prod.fst := by
        rw [← hq1']
        exact List.mem_map_of_mem Prod.fst hq
      have hmem2 : p.1 ∈ (p :: t).map Prod.fst :=
        List.mem_map_of_mem Prod.fst (List.mem_cons_self p t)
      exact hdisj hmem hmem2
    simp only [List.foldl_cons]
    rw [show dictInsert acc p.1 p.2 = acc ++ [p] by
          unfold dictInsert
          rw [if_neg hfresh]]
    rw [foldl_dictInsert_of_nodup t (acc ++ [p]) h']
    rw [List.append_assoc]
    rfl

/-- The two-region catalog of the claim's example: `us` and `ca` both carry a
channel keyed `news1`. -/
def newsCatalog : Catalog :=
  ⟨[("us".data, ⟨[("news1".data,
       ⟨Option.none, some "News US".data, Option.none, some "News".data⟩)]⟩),
    ("ca".data, ⟨[("news1".data,
       ⟨Option.none, some "News CA".data, Option.none, some "News".data⟩)]⟩)]⟩

/-- A catalog on which the synthesized keys collide: channel `a-b` of region
`c` and channel `a` of region `b-c` both synthesize the key `a-b-c`. -/
def collidingCatalog : Catalog :=
  ⟨[("c".data, ⟨[("a-b".data, ⟨Option.none, Option.none, Option.none, Option.none⟩)]⟩),
    ("b-c".data, ⟨[("a".data, ⟨Option.none, Option.none, Option.none, Option.none⟩)]⟩)]⟩

/-- C5, counterexample: on `collidingCatalog` the two channels of the two
regions synthesize the same key, so merged mode keeps a single entry — not
one entry per channel of every region — and no surviving entry belongs to
region `c`. -/
theorem C5_colliding_keys_lose_entry :
    (collidingCatalog.regions.map (fun rp => rp.2.channels.length)).sum = 2
    ∧ (buildAll collidingCatalog).length = 1
    ∧ (∀ p ∈ buildAll collidingCatalog, p.2.region_code ≠ "c".data) := by
  decide

/-- C5, amended: provided the synthesized keys `channelKey ++ "-" ++
regionCode` are pairwise distinct across the catalog (they collide only in
contrived catalogs; colliding keys collapse to one entry, last write
winning), merged mode produces exactly one entry per channel of every
region, keyed by the channel key suffixed with the region code, carrying the
region's display name (upper-cased code when unknown) as group override and
the un-prefixed channel key as `original_id`; the rendered entry then uses
the override as group title and the original key for both `tvg-id` and the
stream URL. Two regions `us` and `ca` sharing `news1` yield the two distinct
entries `news1-us` and `news1-ca`. -/
theorem C5_all_mode_amended (cat : Catalog)
    (hinj : ((allEntriesFlat cat).map Prod.fst).Nodup) :
    buildAll cat = allEntriesFlat cat
    ∧ (∀ rp ∈ cat.regions, ∀ cp ∈ rp.2.channels,
        (cp.1 ++ "-".data ++ rp.1,
         ({ info := cp.2, region_code := rp.1,
            group_title_override := some (regionFullName rp.1),
            original_id := cp.1 } : ProcEntry)) ∈ buildAll cat)
    ∧ (∀ (uid g : PyStr) (e : ProcEntry), e.group_title_override = some g →
        entryLines true uid e =
          format_extinf uid e.original_id (e.info.chno.getD PyPrim.none)
            (e.info.name.getD "Unknown Channel".data) (e.info.logo.getD []) g
            (e.info.name.getD "Unknown Channel".data)
          ++ streamUrl e.original_id ++ "\n".data)
    ∧ (∀ rk, dictGet region_name_map rk = Option.none → regionFullName rk = pyUpper rk)
    ∧ (buildAll newsCatalog).map Prod.fst = ["news1-us".data, "news1-ca".data]
    ∧ (∀ p ∈ buildAll newsCatalog,
        p.2.original_id = "news1".data
        ∧ (p.2.region_code = "us".data →
            p.2.group_title_override = some "United States".data)
        ∧ (p.2.region_code = "ca".data →
            p.2.group_title_override = some "Canada".data)) := by
  have hb : buildAll cat = allEntriesFlat cat := by
    rw [buildAll_eq_foldl]
    simpa using foldl_dictInsert_of_nodup (allEntriesFlat cat) [] (by simpa using hinj)
  refine ⟨hb, ?_, ?_, ?_, by decide, by decide⟩
  · intro rp hrp cp hcp
    rw [hb]
    unfold allEntriesFlat
    exact List.mem_flatMap.mpr ⟨rp, hrp, List.mem_map_of_mem _ hcp⟩
  · intro uid g e hg
    unfold entryLines
    rw [hg]
    rfl
  · intro rk hrk
    unfold regionFullName
    rw [hrk]
    rfl

/-- Closed instance of `C5_all_mode_amended` on the `news1` two-region
catalog, discharging the key-distinctness hypothesis there. -/
theorem C5_all_mode_amended_witness :
    ((allEntriesFlat newsCatalog).map Prod.fst).Nodup
    ∧ (buildAll newsCatalog).map Prod.fst = ["news1-us".data, "news1-ca".data] :=
  ⟨by decide, (C5_all_mode_amended newsCatalog (by decide)).2.2.2.2.1⟩

/-- C8, counterexample: a gzip decompression failure other than
`BadGzipFile` (e.g. `EOFError` on a truncated stream) is re-raised on
line 41 and caught by the outer handler, so `fetch_url` returns the `None`
sentinel — not the body as plain text — refuting the claim that every
decompression failure falls back to plain text. -/
theorem C8_gzip_other_error_returns_sentinel :
    fetch_url (α := PyStr) (.ok "x".data) (fun _ => .otherError)
        (fun _ => Option.none) false true = .noneV
    ∧ (∀ s : PyStr, (FetchRet.noneV : FetchRet PyStr) ≠ .textV s) := by
  refine ⟨rfl, ?_⟩
  intro s h
  exact FetchRet.noConfusion h

/-- C8, amended: only a `BadGzipFile` failure (body without the gzip magic,
i.e. mislabeled plain content) falls back to treating the body as plain
text — which is then still JSON-parsed when requested — while any other
decompression failure is re-raised and converted to the `None` sentinel by
the outer handler. -/
theorem C8_gzip_fallback_amended {α : Type} (body : PyStr)
    (gz : PyStr → GzipOutcome) (jparse : PyStr → Option α) (is_json : Bool)
    (hgz : gz body = .badGzip) :
    fetch_url (.ok body) gz jparse is_json true =
      (if is_json then
        (match jparse body with
         | some j => FetchRet.jsonV j
         | Option.none => FetchRet.noneV)
       else FetchRet.textV body)
    ∧ (∀ b, gz b = .otherError →
        fetch_url (.ok b) gz jparse is_json true = .noneV) := by
  constructor
  · simp [fetch_url, hgz]
  · intro b hb
    simp [fetch_url, hb]

/-- Closed instance of `C8_gzip_fallback_amended`: a mislabeled plain-text
body is returned as text, the `BadGzipFile` hypothesis discharged
concretely. -/
theorem C8_gzip_fallback_amended_witness :
    ((fun _ : PyStr => GzipOutcome.badGzip) "hello".data = .badGzip)
    ∧ fetch_url (α := PyStr) (.ok "hello".data) (fun _ => .badGzip)
        (fun _ => Option.none) false true = .textV "hello".data :=
  ⟨rfl, by
    have h := (C8_gzip_fallback_amended (α := PyStr) "hello".data
      (fun _ => .badGzip) (fun _ => Option.none) false rfl).1
    simpa using h⟩

/-- C9: every generated playlist — merged `"all"` mode and named-region mode
alike — is the single `#EXTM3U url-tvg="<epg-url>"` header line followed,
per channel in sorted order, by the `#EXTINF:-1` line carrying exactly the
quoted attributes `channel-id`, `tvg-id`, `tvg-chno`, `tvg-name`,
`tvg-logo`, `group-title` in that order, a comma, the display name, and
then one line holding the resolved stream URL. -/
theorem C9_output_format (cat : Catalog) (sort region : PyStr) :
    (∀ content, regionOutput cat sort region = some content →
      ∃ (is_all : Bool) (m : List (PyStr × ProcEntry)),
        content = m3uHeader region ++
          ((sortChannelIds sort m).map (fun k =>
            match dictGet m k with
            | some e => entryLines is_all k e
            | Option.none => [])).flatten)
    ∧ (pyLower region = "all".data →
        regionOutput cat sort region = some (
          m3uHeader region ++
          ((sortChannelIds sort (buildAll cat)).map (fun k =>
            match dictGet (buildAll cat) k with
            | some e => entryLines true k e
            | Option.none => [])).flatten))
    ∧ (∀ rd, pyLower region ≠ "all".data → dictGet cat.regions region = some rd →
        regionOutput cat sort region = some (
          m3uHeader region ++
          ((sortChannelIds sort (buildOne region rd)).map (fun k =>
            match dictGet (buildOne region rd) k with
            | some e => entryLines false k e
            | Option.none => [])).flatten))
    ∧ m3uHeader region = "#EXTM3U url-tvg=\"".data ++ epgUrl region ++ "\"\n".data
    ∧ (∀ (is_all : Bool) (k : PyStr) (e : ProcEntry),
        entryLines is_all k e =
          format_extinf k e.original_id (e.info.chno.getD PyPrim.none)
            (e.info.name.getD "Unknown Channel".data) (e.info.logo.getD [])
            (if is_all then e.group_title_override.getD []
             else e.info.group.getD "Uncategorized".data)
            (e.info.name.getD "Unknown Channel".data)
          ++ streamUrl e.original_id ++ "\n".data)
    ∧ (∀ (cid tid : PyStr) (chno : PyPrim) (nm lg gr dn : PyStr),
        format_extinf cid tid chno nm lg gr dn =
          "#EXTINF:-1 channel-id=\"".data ++ cid ++
          "\" tvg-id=\"".data ++ tid ++
          "\" tvg-chno=\"".data ++ chno_str_of chno ++
          "\" tvg-name=\"".data ++ pyReplaceChar nm dq sq ++
          "\" tvg-logo=\"".data ++ lg ++
          "\" group-title=\"".data ++ pyReplaceChar gr dq sq ++
          "\",".data ++ pyRemoveChar dn comma ++ "\n".data)
    ∧ (∀ oid : PyStr, streamUrl oid =
        "https://jmp2.uk/plu-".data ++ oid ++ ".m3u8".data) := by
  have hAll : pyLower region = "all".data →
      regionOutput cat sort region = some (
        m3uHeader region ++
        ((sortChannelIds sort (buildAll cat)).map (fun k =>
          match dictGet (buildAll cat) k with
          | some e => entryLines true k e
          | Option.none => [])).flatten) := by
    intro h
    unfold regionOutput
    simp [h]
  have hOne : ∀ rd, pyLower region ≠ "all".data →
      dictGet cat.regions region = some rd →
      regionOutput cat sort region = some (
        m3uHeader region ++
        ((sortChannelIds sort (buildOne region rd)).map (fun k =>
          match dictGet (buildOne region rd) k with
          | some e => entryLines false k e
          | Option.none => [])).flatten) := by
    intro rd h hrd
    unfold regionOutput
    simp [h, hrd]
  refine ⟨?_, hAll, hOne, rfl, ?_, ?_, ?_⟩
  · intro content hc
    by_cases h : pyLower region = "all".data
    · refine ⟨true, buildAll cat, ?_⟩
      rw [hAll h] at hc
      exact (Option.some_inj.mp hc).symm
    · rcases hrd : dictGet cat.regions region with _ | rd
      · exfalso
        unfold regionOutput at hc
        simp [h, hrd] at hc
      · refine ⟨false, buildOne region rd, ?_⟩
        rw [hOne rd h hrd] at hc
        exact (Option.some_inj.mp hc).symm
  · intro is_all k e
    cases is_all <;> rfl
  · intro cid tid chno nm lg gr dn
    rfl
  · intro oid
    rfl

/-- Closed instance of `C9_output_format`: the merged-mode playlist of the
demo catalog, discharging the `"all"` hypothesis there. -/
theorem C9_output_format_witness :
    (pyLower "all".data = "all".data)
    ∧ regionOutput usOnlyCatalog "name".data "all".data = some (
        m3uHeader "all".data ++
        ((sortChannelIds "name".data (buildAll usOnlyCatalog)).map
          (fun k =>
            match dictGet (buildAll usOnlyCatalog) k with
            | some e => entryLines true k e
            | Option.none => [])).flatten) :=
  ⟨by decide,
   (C9_output_format usOnlyCatalog "name".data "all".data).2.1 (by decide)⟩

/-- C10: a channel record with no name field sorts under name-sort with the
empty string as key — hence before every other key — while the rendered
metadata line carries `Unknown Channel`, unchanged by sanitization and never
empty, both as the `tvg-name` attribute and as the trailing display name. -/
theorem C10_unknown_channel_rendering (p : PyStr × ProcEntry)
    (hname : p.2.info.name = Option.none) :
    nameKey p.2 = []
    ∧ (∀ q : PyStr × ProcEntry, pyStrLe (nameKey p.2) (nameKey q.2) = true)
    ∧ (∀ is_all : Bool,
        entryLines is_all p.1 p.2 =
          format_extinf p.1 p.2.original_id (p.2.info.chno.getD PyPrim.none)
            "Unknown Channel".data (p.2.info.logo.getD [])
            (if is_all then p.2.group_title_override.getD []
             else p.2.info.group.getD "Uncategorized".data)
            "Unknown Channel".data
          ++ streamUrl p.2.original_id ++ "\n".data)
    ∧ pyReplaceChar "Unknown Channel".data dq sq = "Unknown Channel".data
    ∧ pyRemoveChar "Unknown Channel".data comma = "Unknown Channel".data
    ∧ "Unknown Channel".data ≠ ([] : PyStr) := by
  have hk : nameKey p.2 = [] := by
    simp [nameKey, hname, pyLower]
  refine ⟨hk, ?_, ?_, by decide, by decide, by decide⟩
  · intro q
    rw [hk]
    simp [pyStrLe]
  · intro is_all
    unfold entryLines
    rw [hname]
    cases is_all <;> rfl

/-- Closed instance of `C10_unknown_channel_rendering` on a nameless
channel, discharging the missing-name hypothesis there. -/
theorem C10_unknown_channel_rendering_witness :
    ((("x".data,
        ({ info := ⟨Option.none, Option.none, Option.none, Option.none⟩,
           region_code := "us".data, group_title_override := Option.none,
           original_id := "x".data } : ProcEntry)) :
        PyStr × ProcEntry).2.info.name = Option.none)
    ∧ nameKey (("x".data,
        ({ info := ⟨Option.none, Option.none, Option.none, Option.none⟩,
           region_code := "us".data, group_title_override := Option.none,
           original_id := "x".data } : ProcEntry)) :
        PyStr × ProcEntry).2 = [] :=
  ⟨rfl,
   (C10_unknown_channel_rendering
      ("x".data,
        { info := ⟨Option.none, Option.none, Option.none, Option.none⟩,
          region_code := "us".data, group_title_override := Option.none,
          original_id := "x".data }) rfl).1⟩

end PlutoGen
